import Mathlib

/-!
# Verification development for the kicad-viewer Nextcloud plugin

Shallow embedding of the plugin's backend file proxy
(`lib/Controller/FileController.php`, `appinfo/routes.php`) and of the
client-side viewer component (`src/js/App/App.mjs` and its earlier
iteration), together with theorems settling the specification claims.

Machine integers are modelled as `Nat`; PHP/JS strings as Lean `String`;
byte buffers as `List Nat` with every element `< 256`; fallible code as
`Option`/`Except`; the mutable token map as an explicit association list
threaded through each handler.
-/

/- ----------------------------------------------------------------- -/
/- MIME / extension mapper                                           -/
/- ----------------------------------------------------------------- -/

/-- The six KiCAD extensions recognised by the plugin
(`FileController::isKiCadFile` and the mapper tables). -/
def kicadExtensions : List String :=
  ["kicad_sch", "kicad_pcb", "kicad_pro", "kicad_wks", "kicad_mod", "kicad_sym"]

/-- `getKiCadMimeType` — the fixed six-entry extension→MIME table with
`text/plain` default, as implemented identically in
`FileController::getKiCadMimeType` (PHP, `$mimeMap[$extension] ?? 'text/plain'`)
and in `getKiCadMimeType` of `App.mjs` (`mimeMap[extension] || 'text/plain'`). -/
def getKiCadMimeType (e : String) : String :=
  if e = "kicad_pcb" then "application/x-kicad-pcb"
  else if e = "kicad_sch" then "application/x-kicad-schematic"
  else if e = "kicad_pro" then "application/x-kicad-project"
  else if e = "kicad_wks" then "application/x-kicad-workspace"
  else if e = "kicad_mod" then "application/x-kicad-footprint"
  else if e = "kicad_sym" then "application/x-kicad-symbol"
  else "text/plain"

/-- C5: the extension-to-MIME mapper is a pure total function: each of the six
supported extensions maps to its vendor MIME string, and every other extension
maps to `text/plain`; being a total Lean function it has no error case. -/
theorem c5_mime_mapper_table :
    getKiCadMimeType "kicad_pcb" = "application/x-kicad-pcb" ∧
    getKiCadMimeType "kicad_sch" = "application/x-kicad-schematic" ∧
    getKiCadMimeType "kicad_pro" = "application/x-kicad-project" ∧
    getKiCadMimeType "kicad_wks" = "application/x-kicad-workspace" ∧
    getKiCadMimeType "kicad_mod" = "application/x-kicad-footprint" ∧
    getKiCadMimeType "kicad_sym" = "application/x-kicad-symbol" ∧
    (∀ e : String, e ∉ kicadExtensions → getKiCadMimeType e = "text/plain") := by
  refine ⟨rfl, rfl, rfl, rfl, rfl, rfl, ?_⟩
  intro e he
  simp only [kicadExtensions, List.mem_cons, List.not_mem_nil, or_false, not_or] at he
  obtain ⟨h1, h2, h3, h4, h5, h6⟩ := he
  simp [getKiCadMimeType, h1, h2, h3, h4, h5, h6]

/-- Witness for C5: the unrecognized extension `"xyz"` maps to `text/plain`. -/
theorem c5_mime_mapper_table_witness :
    getKiCadMimeType "xyz" = "text/plain" :=
  c5_mime_mapper_table.2.2.2.2.2.2 "xyz" (by decide)

/- ----------------------------------------------------------------- -/
/- Backend file proxy: FileController.php and appinfo/routes.php     -/
/- ----------------------------------------------------------------- -/

/-- Lowercase hexadecimal digit (0-9 then a-f), as produced by PHP bin2hex. -/
def hexDigit (n : Nat) : Char :=
  if n < 10 then Char.ofNat (48 + n) else Char.ofNat (87 + n)

/-- PHP `bin2hex` over a byte buffer: two lowercase hex digits per byte. -/
def bin2hex (bytes : List Nat) : String :=
  String.mk (bytes.flatMap (fun b => [hexDigit (b / 16), hexDigit (b % 16)]))

/-- PHP truthiness of a string value (the test `if (!$s)`): the empty string
and the string "0" are falsy; every other string is truthy. -/
def phpTruthy (s : String) : Bool := !(s == "" || s == "0")

/-- PHP `strtolower` on one character (ASCII letters only). -/
def asciiLowerChar (c : Char) : Char :=
  if 'A' ≤ c ∧ c ≤ 'Z' then Char.ofNat (c.toNat + 32) else c

/-- PHP `strtolower` (ASCII). -/
def strtolower (s : String) : String := String.mk (s.data.map asciiLowerChar)

/-- The characters after the last dot of a name, `none` when it has no dot. -/
def extAfterLastDot : List Char → Option (List Char)
  | [] => none
  | c :: rest =>
    match extAfterLastDot rest with
    | some e => some e
    | none => if c = '.' then some rest else none

/-- `strtolower(pathinfo($filename, PATHINFO_EXTENSION))`: the lowercased
substring after the last dot, empty when the name has no dot. -/
def extensionOf (filename : String) : String :=
  match extAfterLastDot filename.data with
  | some e => strtolower (String.mk e)
  | none => ""

/-- `FileController::isKiCadFile`. -/
def isKiCadFile (filename : String) : Bool :=
  kicadExtensions.contains (extensionOf filename)

/-- `FileController::getMinimalKiCadContent`; `rand` is the buffer drawn by
`random_bytes(16)` for the schematic uuid. -/
def getMinimalKiCadContent (e : String) (rand : List Nat) : String :=
  if e = "kicad_sch" then
    "(kicad_sch (version 20230121) (generator eeschema)
  (uuid " ++ bin2hex rand ++ ")
  (paper \"A4\")
  (title_block
    (title \"Missing File\")
    (date \"\")
    (rev \"\")
    (company \"\")
  )
)"
  else if e = "kicad_pcb" then
    "(kicad_pcb (version 20230121) (generator pcbnew)
  (general
    (thickness 1.6)
  )
  (paper \"A4\")
  (title_block
    (title \"Missing File\")
  )
  (layers
    (0 \"F.Cu\" signal)
    (31 \"B.Cu\" signal)
  )
)"
  else if e = "kicad_pro" then
    "\x7b
  \"board\": \x7b
    \"design_settings\": \x7b\x7d,
    \"layer_presets\": [],
    \"viewports\": []
  \x7d,
  \"boards\": [],
  \"libraries\": \x7b\x7d,
  \"meta\": \x7b
    \"filename\": \"missing.kicad_pro\",
    \"version\": 1
  \x7d,
  \"net_settings\": \x7b\x7d,
  \"pcbnew\": \x7b\x7d,
  \"schematic\": \x7b\x7d,
  \"sheets\": []
\x7d"
  else "# Missing KiCAD file"

/-- An HTTP response as assembled by the controller: a `StreamResponse`
status, its `addHeader` calls in order, and the body. -/
structure Response where
  status : Nat
  headers : List (String × String)
  body : String
deriving DecidableEq

/-- The header block shared by every 200 file response
(Content-Type, inline disposition, length, permissive CORS). -/
def kicanvasHeaders (mime filename content : String) : List (String × String) :=
  [("Content-Type", mime),
   ("Content-Disposition", "inline; filename=\"" ++ filename ++ "\""),
   ("Content-Length", toString content.length),
   ("Access-Control-Allow-Origin", "*"),
   ("Access-Control-Allow-Methods", "GET"),
   ("Access-Control-Allow-Headers", "Content-Type")]

/-- Outcome of `$userFolder->get(path)` followed by the type test:
a regular file node (content, storage MIME type, node name), a node that is
not a regular file, or a thrown storage exception carrying a message. -/
inductive LookupOutcome
  | fileNode (content : String) (mime : String) (nodeName : String)
  | notFile
  | missing (msg : String)
deriving DecidableEq

/-- Whether the lookup produced a regular file. -/
def LookupOutcome.isFile : LookupOutcome → Bool
  | .fileNode _ _ _ => true
  | _ => false

/-- Ambient server state seen by one authenticated-endpoint request:
the session user, the storage lookup outcome for the requested name, an
unexpected exception raised after the file was obtained (reaching the outer
catch), and the bytes drawn by random_bytes for synthesized content. -/
structure ServerEnv where
  sessionUser : Option String
  lookup : LookupOutcome
  unexpected : Option String
  rand : List Nat
deriving DecidableEq

/-- `FileController::createMissingFileResponse`. -/
def createMissingFileResponse (filename : String) (rand : List Nat) : Response :=
  let ext := extensionOf filename
  let mime := getKiCadMimeType ext
  let content := getMinimalKiCadContent ext rand
  ⟨200, kicanvasHeaders mime filename content, content⟩

/-- `FileController::createErrorResponse`: KiCAD filenames get the synthesized
missing-file response; everything else a plain StreamResponse with the status. -/
def createErrorResponse (message : String) (statusCode : Nat)
    (filename : String) (rand : List Nat) : Response :=
  if phpTruthy filename && isKiCadFile filename then
    createMissingFileResponse filename rand
  else ⟨statusCode, [], message⟩

/-- `FileController::getFile` (`$path` is received but unused: the code reads
`$filename` for the storage path). -/
def getFile (_path : String) (filename : String) (env : ServerEnv) : Response :=
  match env.sessionUser with
  | none => createErrorResponse "User not found" 401 filename env.rand
  | some _ =>
    match env.lookup with
    | .missing _ => createMissingFileResponse filename env.rand
    | .notFile => createMissingFileResponse filename env.rand
    | .fileNode content mime _ =>
      match env.unexpected with
      | some msg =>
          createErrorResponse ("Server error: " ++ msg) 500 filename env.rand
      | none => ⟨200, kicanvasHeaders mime filename content, content⟩

/-- `FileController::getPublicFile` as it stands in the current controller:
same body as `getFile`, keyed on a `$filename` argument, with no reference to
the token map. -/
def getPublicFile (filename : String) (env : ServerEnv) : Response :=
  match env.sessionUser with
  | none => createErrorResponse "User not found" 401 filename env.rand
  | some _ =>
    match env.lookup with
    | .missing _ => createMissingFileResponse filename env.rand
    | .notFile => createMissingFileResponse filename env.rand
    | .fileNode content mime _ =>
      match env.unexpected with
      | some msg =>
          createErrorResponse ("Server error: " ++ msg) 500 filename env.rand
      | none => ⟨200, kicanvasHeaders mime filename content, content⟩

/-- One record of the static `$publicTokens` map. -/
structure TokenRecord where
  filePath : String
  userId : String
  expires : Nat
deriving DecidableEq

/-- The process-wide `self::$publicTokens` map; assignment conses, lookup
takes the first (most recent) binding, unset removes all bindings of a key. -/
abbrev TokenMap := List (String × TokenRecord)

/-- Result body of `createPublicToken` (always delivered with HTTP 200). -/
inductive CreateTokenResult
  | token (t : String)
  | errorMsg (msg : String)
deriving DecidableEq

/-- `FileController::createPublicToken`: `user` is the session user,
`filePathParam` the request parameter `filePath` (none when absent),
`randBytes` the 32 bytes drawn by `random_bytes(32)`, `now` the value of
`time()`. Returns the JSON body and the updated token map. -/
def createPublicToken (user : Option String) (filePathParam : Option String)
    (randBytes : List Nat) (now : Nat) (m : TokenMap) :
    CreateTokenResult × TokenMap :=
  match user with
  | none => (.errorMsg "User not found", m)
  | some uid =>
    let fp := filePathParam.getD ""
    if phpTruthy fp then
      let token := bin2hex randBytes
      (.token token, (token, ⟨fp, uid, now + 3600⟩) :: m)
    else (.errorMsg "File path is required", m)

/-- `unset(self::$publicTokens[$token])`. -/
def removeToken (m : TokenMap) (token : String) : TokenMap :=
  m.filter (fun p => p.1 != token)

/-- `FileController::getPublicFileByToken`: `storage uid path` models
`$rootFolder->getUserFolder(uid)->get(path)` (a `.missing` outcome is the
exception reaching the outer catch, hence the 500). Returns the response and
the updated token map. -/
def getPublicFileByToken (token : String)
    (storage : String → String → LookupOutcome) (now : Nat) (m : TokenMap) :
    Response × TokenMap :=
  match m.lookup token with
  | none => (⟨404, [], "Token not found"⟩, m)
  | some td =>
    if now > td.expires then
      (⟨410, [], "Token expired"⟩, removeToken m token)
    else
      match storage td.userId td.filePath with
      | .missing msg => (⟨500, [], "Server error: " ++ msg⟩, m)
      | .notFile => (⟨404, [], "File not found"⟩, m)
      | .fileNode content mime nodeName =>
          (⟨200, kicanvasHeaders mime nodeName content, content⟩, m)

/-- The route table of `appinfo/routes.php`: (name, url, verb). -/
def routes : List (String × String × String) :=
  [("file#test", "/test", "GET"),
   ("file#getFile", "/api/file/{path}/{filename}", "GET"),
   ("file#createPublicToken", "/api/public-token", "POST"),
   ("file#getPublicFile", "/public/{token}", "GET")]

/-- Which controller action a URL pattern is wired to. -/
def routeNameFor (url : String) : Option String :=
  (routes.find? (fun r => r.2.1 == url)).map (fun r => r.1)

/- ----------------------------------------------------------------- -/
/- Backend lemmas                                                    -/
/- ----------------------------------------------------------------- -/

lemma hexDigit_mem (n : Nat) (h : n < 16) :
    hexDigit n ∈ "0123456789abcdef".data := by
  interval_cases n <;> decide

lemma bin2hex_length (bytes : List Nat) :
    (bin2hex bytes).length = 2 * bytes.length := by
  induction bytes with
  | nil => rfl
  | cons b bs ih =>
    simp only [bin2hex, String.length] at ih ⊢
    simp [List.flatMap_cons] at ih ⊢
    omega

lemma bin2hex_hex (bytes : List Nat) (h : ∀ b ∈ bytes, b < 256) :
    ∀ c ∈ (bin2hex bytes).data, c ∈ "0123456789abcdef".data := by
  intro c hc
  simp only [bin2hex, List.mem_flatMap] at hc
  obtain ⟨b, hb, hcb⟩ := hc
  have hb256 := h b hb
  simp only [List.mem_cons, List.not_mem_nil, or_false] at hcb
  rcases hcb with h1 | h2
  · exact h1 ▸ hexDigit_mem _ (by omega)
  · exact h2 ▸ hexDigit_mem _ (by omega)

/-- KiCAD filenames are PHP-truthy: neither "" nor "0" has a KiCAD extension. -/
lemma isKiCadFile_truthy (filename : String) (h : isKiCadFile filename = true) :
    phpTruthy filename = true := by
  by_cases h0 : filename = ""
  · subst h0; exact absurd h (by decide)
  · by_cases h1 : filename = "0"
    · subst h1; exact absurd h (by decide)
    · simp [phpTruthy, h0, h1]

/- ----------------------------------------------------------------- -/
/- C9                                                                -/
/- ----------------------------------------------------------------- -/

/-- C9: for every `getFile` request whose filename has a KiCAD extension the
response status is 200 (never an HTTP error status) and carries the CORS
header; in every non-success situation (no session user, lookup failure, or
an unexpected storage exception) the response is exactly the synthesized
missing-file response, whose Content-Type is the extension-mapped MIME type
and whose body is the minimal KiCAD document (the default branch being the
line "# Missing KiCAD file"), so status codes cannot distinguish a missing
file from a real one. -/
theorem c9_kicad_getfile_never_http_error
    (path filename : String) (env : ServerEnv)
    (h : isKiCadFile filename = true) :
    (getFile path filename env).status = 200 ∧
    (getFile path filename env).headers.lookup "Access-Control-Allow-Origin"
      = some "*" ∧
    (env.sessionUser = none →
      getFile path filename env = createMissingFileResponse filename env.rand) ∧
    (env.lookup.isFile = false →
      getFile path filename env = createMissingFileResponse filename env.rand) ∧
    (env.unexpected.isSome = true → env.lookup.isFile = true →
      getFile path filename env = createMissingFileResponse filename env.rand) ∧
    (createMissingFileResponse filename env.rand).headers.lookup "Content-Type"
      = some (getKiCadMimeType (extensionOf filename)) ∧
    (createMissingFileResponse filename env.rand).body
      = getMinimalKiCadContent (extensionOf filename) env.rand := by
  have htruth := isKiCadFile_truthy filename h
  obtain ⟨su, lk, ux, rand⟩ := env
  cases su <;> cases lk <;> cases ux <;>
    simp_all [getFile, createErrorResponse, createMissingFileResponse,
      kicanvasHeaders, LookupOutcome.isFile, List.lookup]

/-- Witness for C9 at a concrete request: a missing `board.kicad_pcb` under an
authenticated session. -/
theorem c9_kicad_getfile_never_http_error_witness :
    (getFile "board.kicad_pcb" "board.kicad_pcb"
        ⟨some "alice", .missing "err", none, []⟩).status = 200 ∧
    getFile "board.kicad_pcb" "board.kicad_pcb"
        ⟨some "alice", .missing "err", none, []⟩
      = createMissingFileResponse "board.kicad_pcb" [] :=
  ⟨(c9_kicad_getfile_never_http_error "board.kicad_pcb" "board.kicad_pcb"
      ⟨some "alice", .missing "err", none, []⟩ (by decide)).1,
   (c9_kicad_getfile_never_http_error "board.kicad_pcb" "board.kicad_pcb"
      ⟨some "alice", .missing "err", none, []⟩ (by decide)).2.2.2.1 rfl⟩

/- ----------------------------------------------------------------- -/
/- C2                                                                -/
/- ----------------------------------------------------------------- -/

/-- Environment for the C2 counterexample: an authenticated session whose
storage lookup throws (the requested path resolves to no regular file). -/
def c2Env : ServerEnv := ⟨some "alice", .missing "storage exception detail", none, []⟩

/-- C2 counterexample: with an authenticated user and a path that does not
resolve to a regular file, `getFile` answers 200 (the synthesized content),
not the claimed 404. -/
theorem c2_counterexample :
    (getFile "board.kicad_pcb" "board.kicad_pcb" c2Env).status = 200 ∧
    ((getFile "board.kicad_pcb" "board.kicad_pcb" c2Env).status == 404) = false := by
  exact ⟨rfl, rfl⟩

/-- C2 (amended): with an authenticated user, a request whose path does not
resolve to a regular file gets HTTP status 200 — not 404 — carrying the
synthesized minimal KiCAD body; no storage-error detail can appear in the
body because the response is exactly `createMissingFileResponse`, a function
of the filename and the random buffer only. -/
theorem c2_missing_file_synthesized_200
    (path filename u : String) (env : ServerEnv)
    (hu : env.sessionUser = some u) (hl : env.lookup.isFile = false) :
    getFile path filename env = createMissingFileResponse filename env.rand ∧
    (getFile path filename env).status = 200 ∧
    (getFile path filename env).body
      = getMinimalKiCadContent (extensionOf filename) env.rand := by
  obtain ⟨su, lk, ux, rand⟩ := env
  cases su <;> cases lk <;>
    simp_all [getFile, LookupOutcome.isFile, createMissingFileResponse]

/-- Witness for C2 (amended) at the counterexample request. -/
theorem c2_missing_file_synthesized_200_witness :
    getFile "board.kicad_pcb" "board.kicad_pcb" c2Env
      = createMissingFileResponse "board.kicad_pcb" [] ∧
    (getFile "board.kicad_pcb" "board.kicad_pcb" c2Env).status = 200 :=
  ⟨(c2_missing_file_synthesized_200 "board.kicad_pcb" "board.kicad_pcb" "alice"
      c2Env rfl rfl).1,
   (c2_missing_file_synthesized_200 "board.kicad_pcb" "board.kicad_pcb" "alice"
      c2Env rfl rfl).2.1⟩

/- ----------------------------------------------------------------- -/
/- C7                                                                -/
/- ----------------------------------------------------------------- -/

/-- C7 counterexample: the string "0" is a non-empty filePath parameter, yet
`createPublicToken` with an authenticated user returns the error object and
leaves the token map unchanged, because the PHP test `if (!$filePath)` treats
"0" as falsy. -/
theorem c7_counterexample :
    ("0" == "") = false ∧
    createPublicToken (some "alice") (some "0") (List.replicate 32 0) 99 []
      = (CreateTokenResult.errorMsg "File path is required", []) := by
  exact ⟨rfl, rfl⟩

/-- C7 (amended): with an authenticated user and a PHP-truthy filePath (a
non-empty string other than "0"), `createPublicToken` stores
`{filePath, userId, expires = now + 3600}` under the fresh token
`bin2hex(randBytes)` — 64 lowercase hex characters for the 32 random bytes —
and returns that token; with no user, or with a missing or falsy filePath, it
returns an error-keyed object and leaves the map unchanged (the handler
returns only a body, rendered with HTTP 200, never an error status). -/
theorem c7_create_token_behaviour
    (uid fp : String) (bytes : List Nat) (now : Nat) (m : TokenMap)
    (hfp : phpTruthy fp = true) (hlen : bytes.length = 32)
    (hbytes : ∀ b ∈ bytes, b < 256) :
    createPublicToken (some uid) (some fp) bytes now m
      = (.token (bin2hex bytes), (bin2hex bytes, ⟨fp, uid, now + 3600⟩) :: m) ∧
    (bin2hex bytes).length = 64 ∧
    (∀ c ∈ (bin2hex bytes).data, c ∈ "0123456789abcdef".data) ∧
    (∀ fp2 bytes2 now2 m2, createPublicToken none fp2 bytes2 now2 m2
        = (.errorMsg "User not found", m2)) ∧
    (∀ uid2 fp2 bytes2 now2 m2, phpTruthy ((fp2 : Option String).getD "") = false →
        createPublicToken (some uid2) fp2 bytes2 now2 m2
          = (.errorMsg "File path is required", m2)) := by
  refine ⟨?_, ?_, bin2hex_hex bytes hbytes, fun _ _ _ _ => rfl, ?_⟩
  · simp [createPublicToken, hfp]
  · rw [bin2hex_length, hlen]
  · intro uid2 fp2 bytes2 now2 m2 hfalsy
    simp [createPublicToken, hfalsy]

/-- Witness for C7 (amended) at a concrete truthy request. -/
theorem c7_create_token_behaviour_witness :
    createPublicToken (some "alice") (some "boards/x.kicad_pcb")
        (List.replicate 32 171) 1000 []
      = (.token (bin2hex (List.replicate 32 171)),
         [(bin2hex (List.replicate 32 171),
           ⟨"boards/x.kicad_pcb", "alice", 4600⟩)]) ∧
    (bin2hex (List.replicate 32 171)).length = 64 :=
  ⟨(c7_create_token_behaviour "alice" "boards/x.kicad_pcb"
      (List.replicate 32 171) 1000 [] (by decide) (by decide)
      (by intro b hb; simp only [List.mem_replicate] at hb; omega)).1,
   (c7_create_token_behaviour "alice" "boards/x.kicad_pcb"
      (List.replicate 32 171) 1000 [] (by decide) (by decide)
      (by intro b hb; simp only [List.mem_replicate] at hb; omega)).2.1⟩

/- ----------------------------------------------------------------- -/
/- C1                                                                -/
/- ----------------------------------------------------------------- -/

/-- The 32 bytes drawn by `random_bytes(32)` in the C1 scenario. -/
def c1Bytes : List Nat := List.replicate 32 171

/-- The token those bytes hash to (64 lowercase hex characters). -/
def c1Token : String := bin2hex c1Bytes

/-- Storage for the C1 scenario: the creating user owns the shared file. -/
def c1Storage : String → String → LookupOutcome := fun uid p =>
  if uid = "alice" && p = "boards/x.kicad_pcb" then
    .fileNode "FILEBYTES" "application/x-kicad-pcb" "x.kicad_pcb"
  else .notFile

/-- The token map right after the creation call. -/
def c1MapAfterCreate : TokenMap :=
  (createPublicToken (some "alice") (some "boards/x.kicad_pcb") c1Bytes 1000 []).2

/-- C1: the claimed 200/410/404 public-token lifecycle is implemented by
`getPublicFileByToken` — redeeming a fresh token before expiry answers 200
with the file bytes and keeps the map; redeeming after expiry answers 410 and
removes the token, so the next request answers 404; an unknown token answers
404 — but `appinfo/routes.php` wires `GET /public/{token}` to
`file#getPublicFile`, a handler that never consults the token map and whose
status is always one of 200/401/500 (in particular never 410), while no route
names `file#getPublicFileByToken`; the routed endpoint therefore cannot
exhibit the claimed lifecycle. -/
theorem c1_public_token_lifecycle_misrouted :
    routeNameFor "/public/{token}" = some "file#getPublicFile" ∧
    ((routes.map (fun r => r.1)).contains "file#getPublicFileByToken") = false ∧
    (∀ filename env, (getPublicFile filename env).status ∈ ([200, 401, 500] : List Nat)) ∧
    (createPublicToken (some "alice") (some "boards/x.kicad_pcb") c1Bytes 1000 []).1
      = CreateTokenResult.token c1Token ∧
    c1MapAfterCreate = [(c1Token, ⟨"boards/x.kicad_pcb", "alice", 4600⟩)] ∧
    (getPublicFileByToken c1Token c1Storage 2000 c1MapAfterCreate).1.status = 200 ∧
    (getPublicFileByToken c1Token c1Storage 2000 c1MapAfterCreate).1.body = "FILEBYTES" ∧
    (getPublicFileByToken c1Token c1Storage 2000 c1MapAfterCreate).2 = c1MapAfterCreate ∧
    (getPublicFileByToken c1Token c1Storage 4601 c1MapAfterCreate).1.status = 410 ∧
    (getPublicFileByToken c1Token c1Storage 4601 c1MapAfterCreate).2 = [] ∧
    (getPublicFileByToken c1Token c1Storage 4601 []).1.status = 404 ∧
    (getPublicFileByToken "deadbeef" c1Storage 2000 c1MapAfterCreate).1.status = 404 := by
  refine ⟨rfl, rfl, ?_, rfl, rfl, rfl, rfl, rfl, rfl, rfl, rfl, rfl⟩
  intro filename env
  obtain ⟨su, lk, ux, rand⟩ := env
  cases su <;> cases lk <;> cases ux <;>
    · simp only [getPublicFile, createErrorResponse, createMissingFileResponse]
      first
      | (split <;> simp)
      | simp

/- ----------------------------------------------------------------- -/
/- File content fetcher: fetchKiCadFile (App.mjs)                     -/
/- ----------------------------------------------------------------- -/

/-- Outcome of the direct `fetch(url)` attempt: a resolved `Response` with its
`ok` flag and text, or a thrown network error. -/
inductive DirectFetchOutcome
  | response (ok : Bool) (text : String)
  | netError
deriving DecidableEq

/-- Outcome of the `fetchFileFromUrl` helper followed by `file.text()`. -/
inductive HelperOutcome
  | fileText (text : String)
  | helperError (msg : String)
deriving DecidableEq

/-- Which path produced the returned text. -/
inductive FetchPath
  | direct
  | helper
deriving DecidableEq

/-- `fetchKiCadFile` from `App.mjs` (identical in the earlier iteration):
the direct fetch wins only when `response.ok`; a thrown fetch or a non-ok
response falls through to the helper; a helper failure is rethrown by the
outer catch. -/
def fetchKiCadFile (d : DirectFetchOutcome) (h : HelperOutcome) :
    Except String (String × FetchPath) :=
  match d with
  | .response true t => .ok (t, .direct)
  | .response false _ =>
    match h with
    | .fileText t => .ok (t, .helper)
    | .helperError m => .error m
  | .netError =>
    match h with
    | .fileText t => .ok (t, .helper)
    | .helperError m => .error m

/-- C6: the fetcher returns the direct response text exactly when the direct
response is successful (whatever the helper would do); on a non-ok response
or a thrown direct fetch it returns the helper text; it throws only when the
direct attempt and the helper both fail. -/
theorem c6_fetch_fallback :
    (∀ t h, fetchKiCadFile (.response true t) h = .ok (t, .direct)) ∧
    (∀ s t, fetchKiCadFile (.response false s) (.fileText t) = .ok (t, .helper)) ∧
    (∀ t, fetchKiCadFile .netError (.fileText t) = .ok (t, .helper)) ∧
    (∀ s m, fetchKiCadFile (.response false s) (.helperError m) = .error m) ∧
    (∀ m, fetchKiCadFile .netError (.helperError m) = .error m) :=
  ⟨fun _ _ => rfl, fun _ _ => rfl, fun _ => rfl, fun _ _ => rfl, fun _ => rfl⟩

/- ----------------------------------------------------------------- -/
/- UTF-8 and base64: encodeUtf8ToBase64 (App.mjs)                     -/
/- ----------------------------------------------------------------- -/

/-- UTF-8 byte sequence of one Unicode scalar value — what `TextEncoder`
emits per code point of a well-formed string. -/
def utf8EncodeChar (n : Nat) : List Nat :=
  if n < 128 then [n]
  else if n < 2048 then [192 + n / 64, 128 + n % 64]
  else if n < 65536 then [224 + n / 4096, 128 + (n / 64) % 64, 128 + n % 64]
  else [240 + n / 262144, 128 + (n / 4096) % 64, 128 + (n / 64) % 64, 128 + n % 64]

/-- `new TextEncoder().encode(str)`: the UTF-8 bytes of the string. -/
def utf8Encode (s : String) : List Nat :=
  s.data.flatMap (fun c => utf8EncodeChar c.toNat)

/-- Continuation byte test: a trailing UTF-8 byte lies in [128, 192). -/
def isContByte (b : Nat) : Prop := 128 ≤ b ∧ b < 192

instance (b : Nat) : Decidable (isContByte b) := by
  unfold isContByte; infer_instance

/-- Decode the tail of a two-byte sequence headed by `b0`. -/
def utf8Tail2 (b0 : Nat) : List Nat → Option (Nat × List Nat)
  | b1 :: rest2 =>
    if isContByte b1 then some ((b0 - 192) * 64 + (b1 - 128), rest2) else none
  | [] => none

/-- Decode the tail of a three-byte sequence headed by `b0`. -/
def utf8Tail3 (b0 : Nat) : List Nat → Option (Nat × List Nat)
  | b1 :: b2 :: rest3 =>
    if isContByte b1 ∧ isContByte b2 then
      some ((b0 - 224) * 4096 + (b1 - 128) * 64 + (b2 - 128), rest3)
    else none
  | _ => none

/-- Decode the tail of a four-byte sequence headed by `b0`. -/
def utf8Tail4 (b0 : Nat) : List Nat → Option (Nat × List Nat)
  | b1 :: b2 :: b3 :: rest4 =>
    if isContByte b1 ∧ isContByte b2 ∧ isContByte b3 then
      some ((b0 - 240) * 262144 + (b1 - 128) * 4096 + (b2 - 128) * 64 + (b3 - 128),
            rest4)
    else none
  | _ => none

/-- One UTF-8 decoding step: the leading code point and the remaining bytes,
`none` on a malformed or empty sequence. -/
def utf8Step : List Nat → Option (Nat × List Nat)
  | [] => none
  | b0 :: rest =>
    if b0 < 128 then some (b0, rest)
    else if b0 < 192 then none
    else if b0 < 224 then utf8Tail2 b0 rest
    else if b0 < 240 then utf8Tail3 b0 rest
    else if b0 < 248 then utf8Tail4 b0 rest
    else none

lemma utf8Tail2_length (b0 : Nat) (r : List Nat) (n : Nat) (rest : List Nat)
    (h : utf8Tail2 b0 r = some (n, rest)) : rest.length < r.length := by
  cases r with
  | nil => simp [utf8Tail2] at h
  | cons b1 r2 =>
    rw [utf8Tail2] at h
    split_ifs at h
    simp only [Option.some.injEq, Prod.mk.injEq] at h
    obtain ⟨h1, h2⟩ := h
    subst h2
    simp only [List.length_cons]
    omega

lemma utf8Tail3_length (b0 : Nat) (r : List Nat) (n : Nat) (rest : List Nat)
    (h : utf8Tail3 b0 r = some (n, rest)) : rest.length < r.length := by
  cases r with
  | nil => simp [utf8Tail3] at h
  | cons b1 r2 =>
    cases r2 with
    | nil => simp [utf8Tail3] at h
    | cons b2 r3 =>
      rw [utf8Tail3] at h
      split_ifs at h
      simp only [Option.some.injEq, Prod.mk.injEq] at h
      obtain ⟨h1, h2⟩ := h
      subst h2
      simp only [List.length_cons]
      omega

lemma utf8Tail4_length (b0 : Nat) (r : List Nat) (n : Nat) (rest : List Nat)
    (h : utf8Tail4 b0 r = some (n, rest)) : rest.length < r.length := by
  cases r with
  | nil => simp [utf8Tail4] at h
  | cons b1 r2 =>
    cases r2 with
    | nil => simp [utf8Tail4] at h
    | cons b2 r3 =>
      cases r3 with
      | nil => simp [utf8Tail4] at h
      | cons b3 r4 =>
        rw [utf8Tail4] at h
        split_ifs at h
        simp only [Option.some.injEq, Prod.mk.injEq] at h
        obtain ⟨h1, h2⟩ := h
        subst h2
        simp only [List.length_cons]
        omega

lemma utf8Step_shrinks (bytes : List Nat) (n : Nat) (rest : List Nat)
    (h : utf8Step bytes = some (n, rest)) : rest.length < bytes.length := by
  cases bytes with
  | nil => simp [utf8Step] at h
  | cons b0 r =>
    rw [utf8Step] at h
    split_ifs at h
    · simp only [Option.some.injEq, Prod.mk.injEq] at h
      obtain ⟨h1, h2⟩ := h
      subst h2
      simp only [List.length_cons]
      omega
    · exact Nat.lt_trans (utf8Tail2_length b0 r n rest h) (Nat.lt_succ_self _)
    · exact Nat.lt_trans (utf8Tail3_length b0 r n rest h) (Nat.lt_succ_self _)
    · exact Nat.lt_trans (utf8Tail4_length b0 r n rest h) (Nat.lt_succ_self _)

/-- A reference UTF-8 decoder, byte list to code points; `none` on a
malformed sequence. -/
def utf8DecodeNats (bytes : List Nat) : Option (List Nat) :=
  match bytes with
  | [] => some []
  | b0 :: rest =>
    match h : utf8Step (b0 :: rest) with
    | some (n, rest2) => (utf8DecodeNats rest2).map (fun l => n :: l)
    | none => none
termination_by bytes.length
decreasing_by exact utf8Step_shrinks _ _ _ h

/-- Rebuild characters from code points, requiring each to be a valid scalar. -/
def natsToChars : List Nat → Option (List Char)
  | [] => some []
  | n :: rest =>
    if _h : n.isValidChar then
      (natsToChars rest).map (fun l => Char.ofNat n :: l)
    else none

/-- Full reference UTF-8 decoding back to a string. -/
def utf8DecodeString (bytes : List Nat) : Option String :=
  (utf8DecodeNats bytes).bind (fun l => (natsToChars l).map String.mk)

/-- Base64 alphabet character of a sextet (the `btoa` alphabet). -/
def sextetToChar (i : Nat) : Char :=
  if i < 26 then Char.ofNat (65 + i)
  else if i < 52 then Char.ofNat (97 + (i - 26))
  else if i < 62 then Char.ofNat (48 + (i - 52))
  else if i = 62 then '+'
  else '/'

/-- Inverse of the base64 alphabet. -/
def charToSextet (c : Char) : Option Nat :=
  if 'A' ≤ c ∧ c ≤ 'Z' then some (c.toNat - 65)
  else if 'a' ≤ c ∧ c ≤ 'z' then some (c.toNat - 97 + 26)
  else if '0' ≤ c ∧ c ≤ '9' then some (c.toNat - 48 + 52)
  else if c = '+' then some 62
  else if c = '/' then some 63
  else none

/-- Base64 of a byte list: three bytes into four characters, with `=`
padding on a short final group — the encoding `btoa` performs. -/
def base64EncodeBytes : List Nat → List Char
  | [] => []
  | [b1] => [sextetToChar (b1 / 4), sextetToChar (b1 % 4 * 16), '=', '=']
  | [b1, b2] => [sextetToChar (b1 / 4), sextetToChar (b1 % 4 * 16 + b2 / 16),
                 sextetToChar (b2 % 16 * 4), '=']
  | b1 :: b2 :: b3 :: rest =>
      sextetToChar (b1 / 4) :: sextetToChar (b1 % 4 * 16 + b2 / 16) ::
      sextetToChar (b2 % 16 * 4 + b3 / 64) :: sextetToChar (b3 % 64) ::
      base64EncodeBytes rest

/-- A reference base64 decoder, inverse of `base64EncodeBytes`. -/
def base64DecodeChars : List Char → Option (List Nat)
  | [] => some []
  | c1 :: c2 :: c3 :: c4 :: rest =>
    match charToSextet c1, charToSextet c2 with
    | some s1, some s2 =>
      if c3 = '=' then
        if c4 = '=' ∧ rest = [] then some [s1 * 4 + s2 / 16] else none
      else
        match charToSextet c3 with
        | some s3 =>
          if c4 = '=' then
            if rest = [] then some [s1 * 4 + s2 / 16, s2 % 16 * 16 + s3 / 4]
            else none
          else
            match charToSextet c4, base64DecodeChars rest with
            | some s4, some tail =>
                some ((s1 * 4 + s2 / 16) :: (s2 % 16 * 16 + s3 / 4) ::
                      (s3 % 4 * 64 + s4) :: tail)
            | _, _ => none
        | none => none
    | _, _ => none
  | _ => none

/-- The `binaryString` loop of `encodeUtf8ToBase64`: one character per byte,
via `String.fromCharCode`. -/
def binaryStringOfBytes (bytes : List Nat) : String :=
  String.mk (bytes.map (fun b => Char.ofNat b))

/-- `btoa`: base64 of the char codes of a Latin-1 string. -/
def btoa (s : String) : String :=
  String.mk (base64EncodeBytes (s.data.map Char.toNat))

/-- `encodeUtf8ToBase64` from `App.mjs` (identical in the earlier App
iteration): UTF-8 encode, rebuild the bytes as a binary string, `btoa`. -/
def encodeUtf8ToBase64 (s : String) : String :=
  btoa (binaryStringOfBytes (utf8Encode s))

/-- Base64 decoding of a string back to bytes. -/
def base64DecodeString (s : String) : Option (List Nat) :=
  base64DecodeChars s.data

/- ----------------------------------------------------------------- -/
/- Round-trip lemmas for UTF-8 and base64                             -/
/- ----------------------------------------------------------------- -/

lemma toNat_ofNat_valid (n : Nat) (h : n.isValidChar) : (Char.ofNat n).toNat = n := by
  rw [Char.ofNat, dif_pos h]
  rfl

lemma char_toNat_valid (c : Char) : c.toNat.isValidChar := c.valid

lemma char_toNat_lt (c : Char) : c.toNat < 1114112 := by
  rcases char_toNat_valid c with h | ⟨_, h2⟩ <;> omega

lemma charToSextet_sextetToChar : ∀ i, i < 64 → charToSextet (sextetToChar i) = some i := by
  decide

lemma sextetToChar_ne_pad : ∀ i, i < 64 → ¬(sextetToChar i = '=') := by
  decide

lemma base64_roundtrip :
    ∀ (bytes : List Nat), (∀ b ∈ bytes, b < 256) →
      base64DecodeChars (base64EncodeBytes bytes) = some bytes
  | [], _ => rfl
  | [b1], h => by
      have hb1 : b1 < 256 := h b1 (by simp)
      have h1 : b1 / 4 < 64 := by omega
      have h2 : b1 % 4 * 16 < 64 := by omega
      simp only [base64EncodeBytes, base64DecodeChars,
        charToSextet_sextetToChar _ h1, charToSextet_sextetToChar _ h2]
      simp only [if_pos rfl, and_self, if_true]
      simp
      omega
  | [b1, b2], h => by
      have hb1 : b1 < 256 := h b1 (by simp)
      have hb2 : b2 < 256 := h b2 (by simp)
      have h1 : b1 / 4 < 64 := by omega
      have h2 : b1 % 4 * 16 + b2 / 16 < 64 := by omega
      have h3 : b2 % 16 * 4 < 64 := by omega
      have hne : ¬(sextetToChar (b2 % 16 * 4) = '=') := sextetToChar_ne_pad _ h3
      simp only [base64EncodeBytes, base64DecodeChars,
        charToSextet_sextetToChar _ h1, charToSextet_sextetToChar _ h2,
        charToSextet_sextetToChar _ h3, if_neg hne, if_pos rfl]
      simp
      omega
  | b1 :: b2 :: b3 :: rest, h => by
      have hb1 : b1 < 256 := h b1 (by simp)
      have hb2 : b2 < 256 := h b2 (by simp)
      have hb3 : b3 < 256 := h b3 (by simp)
      have h1 : b1 / 4 < 64 := by omega
      have h2 : b1 % 4 * 16 + b2 / 16 < 64 := by omega
      have h3 : b2 % 16 * 4 + b3 / 64 < 64 := by omega
      have h4 : b3 % 64 < 64 := by omega
      have hne3 : ¬(sextetToChar (b2 % 16 * 4 + b3 / 64) = '=') := sextetToChar_ne_pad _ h3
      have hne4 : ¬(sextetToChar (b3 % 64) = '=') := sextetToChar_ne_pad _ h4
      have ih := base64_roundtrip rest (fun b hb => h b (by simp [hb]))
      simp only [base64EncodeBytes, base64DecodeChars,
        charToSextet_sextetToChar _ h1, charToSextet_sextetToChar _ h2,
        charToSextet_sextetToChar _ h3, charToSextet_sextetToChar _ h4,
        if_neg hne3, if_neg hne4, ih]
      simp
      omega

lemma utf8EncodeChar_lt_256 (n : Nat) (hn : n < 1114112) :
    ∀ b ∈ utf8EncodeChar n, b < 256 := by
  intro b hb
  unfold utf8EncodeChar at hb
  split_ifs at hb <;>
    simp only [List.mem_cons, List.not_mem_nil, or_false] at hb <;> omega

lemma utf8Encode_lt_256 (s : String) : ∀ b ∈ utf8Encode s, b < 256 := by
  intro b hb
  simp only [utf8Encode, List.mem_flatMap] at hb
  obtain ⟨c, _, hbc⟩ := hb
  exact utf8EncodeChar_lt_256 c.toNat (char_toNat_lt c) b hbc

lemma utf8EncodeChar_ne_nil (n : Nat) : ∃ b0 rest, utf8EncodeChar n = b0 :: rest := by
  unfold utf8EncodeChar
  split_ifs <;> exact ⟨_, _, rfl⟩

lemma utf8Step_encode (n : Nat) (hn : n < 1114112) (bs : List Nat) :
    utf8Step (utf8EncodeChar n ++ bs) = some (n, bs) := by
  by_cases h1 : n < 128
  · simp only [utf8EncodeChar, if_pos h1, List.cons_append, List.nil_append]
    rw [utf8Step]
    simp [h1]
  · by_cases h2 : n < 2048
    · have ha : ¬(192 + n / 64 < 128) := by omega
      have hb : ¬(192 + n / 64 < 192) := by omega
      have hc : 192 + n / 64 < 224 := by omega
      have hd : isContByte (128 + n % 64) := by unfold isContByte; omega
      simp only [utf8EncodeChar, if_neg h1, if_pos h2, List.cons_append,
        List.nil_append]
      rw [utf8Step]
      simp only [if_neg ha, if_neg hb, if_pos hc]
      rw [utf8Tail2, if_pos hd]
      have e : (192 + n / 64 - 192) * 64 + (128 + n % 64 - 128) = n := by omega
      rw [e]
    · by_cases h3 : n < 65536
      · have ha : ¬(224 + n / 4096 < 128) := by omega
        have hb : ¬(224 + n / 4096 < 192) := by omega
        have hc : ¬(224 + n / 4096 < 224) := by omega
        have hd : 224 + n / 4096 < 240 := by omega
        have he1 : isContByte (128 + n / 64 % 64) ∧ isContByte (128 + n % 64) := by
          unfold isContByte; omega
        simp only [utf8EncodeChar, if_neg h1, if_neg h2, if_pos h3,
          List.cons_append, List.nil_append]
        rw [utf8Step]
        simp only [if_neg ha, if_neg hb, if_neg hc, if_pos hd]
        rw [utf8Tail3, if_pos he1]
        have e : (224 + n / 4096 - 224) * 4096 + (128 + n / 64 % 64 - 128) * 64
            + (128 + n % 64 - 128) = n := by omega
        rw [e]
      · have ha : ¬(240 + n / 262144 < 128) := by omega
        have hb : ¬(240 + n / 262144 < 192) := by omega
        have hc : ¬(240 + n / 262144 < 224) := by omega
        have hd : ¬(240 + n / 262144 < 240) := by omega
        have he0 : 240 + n / 262144 < 248 := by omega
        have he1 : isContByte (128 + n / 4096 % 64) ∧
            isContByte (128 + n / 64 % 64) ∧ isContByte (128 + n % 64) := by
          unfold isContByte; omega
        simp only [utf8EncodeChar, if_neg h1, if_neg h2, if_neg h3,
          List.cons_append, List.nil_append]
        rw [utf8Step]
        simp only [if_neg ha, if_neg hb, if_neg hc, if_neg hd, if_pos he0]
        rw [utf8Tail4, if_pos he1]
        have e : (240 + n / 262144 - 240) * 262144 + (128 + n / 4096 % 64 - 128) * 4096
            + (128 + n / 64 % 64 - 128) * 64 + (128 + n % 64 - 128) = n := by omega
        rw [e]

lemma utf8_decode_encode_cons (n : Nat) (hn : n < 1114112) (bs : List Nat) :
    utf8DecodeNats (utf8EncodeChar n ++ bs)
      = (utf8DecodeNats bs).map (fun l => n :: l) := by
  obtain ⟨b0, rest, hL⟩ := utf8EncodeChar_ne_nil n
  have hstep : utf8Step (b0 :: (rest ++ bs)) = some (n, bs) := by
    have h := utf8Step_encode n hn bs
    rwa [hL, List.cons_append] at h
  rw [hL, List.cons_append, utf8DecodeNats]
  split
  · rename_i n2 rest2 heq
    rw [hstep] at heq
    simp only [Option.some.injEq, Prod.mk.injEq] at heq
    obtain ⟨rfl, rfl⟩ := heq
    rfl
  · rename_i heq
    rw [hstep] at heq
    cases heq

lemma utf8DecodeNats_utf8Encode (s : String) :
    utf8DecodeNats (utf8Encode s) = some (s.data.map Char.toNat) := by
  show utf8DecodeNats (s.data.flatMap (fun c => utf8EncodeChar c.toNat))
    = some (s.data.map Char.toNat)
  induction s.data with
  | nil =>
    show utf8DecodeNats [] = some []
    rw [utf8DecodeNats]
  | cons c cs ih =>
    rw [List.flatMap_cons, utf8_decode_encode_cons c.toNat (char_toNat_lt c), ih]
    rfl

lemma natsToChars_map_toNat (l : List Char) :
    natsToChars (l.map Char.toNat) = some l := by
  induction l with
  | nil => rfl
  | cons c cs ih =>
    rw [List.map_cons, natsToChars, dif_pos (char_toNat_valid c), ih]
    simp

lemma map_toNat_ofNat (l : List Nat) (h : ∀ b ∈ l, b < 256) :
    (l.map (fun b => Char.ofNat b)).map Char.toNat = l := by
  induction l with
  | nil => rfl
  | cons b bs ih =>
    have hb : b < 256 := h b (by simp)
    have hv : b.isValidChar := Or.inl (by omega)
    rw [List.map_cons, List.map_cons, toNat_ofNat_valid b hv,
      ih (fun x hx => h x (by simp [hx]))]

/-- C10: `encodeUtf8ToBase64` is exactly base64 over the UTF-8 bytes of the
input, and the encoding round-trips: base64-decoding the result gives back
the UTF-8 bytes, and UTF-8-decoding those bytes gives back the string
(strings are modelled as sequences of Unicode scalar values, the well-formed
case in which `TextEncoder` is the standard UTF-8 encoding). -/
theorem c10_encode_utf8_base64_roundtrip (s : String) :
    encodeUtf8ToBase64 s = String.mk (base64EncodeBytes (utf8Encode s)) ∧
    base64DecodeString (encodeUtf8ToBase64 s) = some (utf8Encode s) ∧
    utf8DecodeString (utf8Encode s) = some s := by
  obtain ⟨l⟩ := s
  have hbytes := utf8Encode_lt_256 ⟨l⟩
  have h1 : encodeUtf8ToBase64 ⟨l⟩ = String.mk (base64EncodeBytes (utf8Encode ⟨l⟩)) := by
    unfold encodeUtf8ToBase64 btoa binaryStringOfBytes
    show String.mk (base64EncodeBytes
      (((utf8Encode ⟨l⟩).map (fun b => Char.ofNat b)).map Char.toNat)) = _
    rw [map_toNat_ofNat _ hbytes]
  refine ⟨h1, ?_, ?_⟩
  · rw [h1]
    show base64DecodeChars (base64EncodeBytes (utf8Encode ⟨l⟩)) = some (utf8Encode ⟨l⟩)
    exact base64_roundtrip _ hbytes
  · unfold utf8DecodeString
    rw [utf8DecodeNats_utf8Encode]
    show (natsToChars (l.map Char.toNat)).map String.mk = some ⟨l⟩
    rw [natsToChars_map_toNat]
    rfl

/- ----------------------------------------------------------------- -/
/- Content delivery: the fallback ladders of loadContentIntoKiCanvas  -/
/- (earlier App iteration) and loadContentIntoKiCanvasEmbed (App.mjs) -/
/- ----------------------------------------------------------------- -/

/-- One delivery strategy, at the granularity of the fallback ladder: a
native widget call, text content on the source element, a blob object URL, a
base64 data URL, or the direct blob/property assignment that
`loadContentIntoKiCanvasEmbed` performs in place of a blob object URL. -/
inductive Strategy
  | native
  | textContent
  | blobUrl
  | dataUrl
  | blobAssign
deriving DecidableEq

/-- Environment of one `loadContentIntoKiCanvas` run: whether the source
element has a `setContent` method, which strategy bodies would throw, and
the global `window.kiCanvasBlobUrlsNotSupported` flag on entry. -/
structure SourceElementEnv where
  hasSetContent : Bool
  setContentThrows : Bool
  textContentThrows : Bool
  blobUrlsNotSupported : Bool
  blobThrows : Bool
  dataUrlThrows : Bool
deriving DecidableEq

/-- Result of a delivery run: the returned `loadSuccess` flag, the attempts
in order with the outcome of each, the global flag afterwards, and whether a
delayed revocation timer for a fresh blob URL was scheduled. -/
structure DeliveryResult where
  success : Bool
  attempts : List (Strategy × Bool)
  blobUrlsNotSupportedAfter : Bool
  revocationScheduled : Bool
deriving DecidableEq

/-- `loadContentIntoKiCanvas` from the earlier App iteration: approach 1 is
a direct `setContent` call (attempted only when the method exists), approach
2 sets `textContent`, approach 3 builds a blob object URL (skipped when the
global flag is set; its failure sets that flag and schedules no revocation),
approach 4 builds a base64 data URL and runs only when
`fileContent.length < 1000000`; each approach runs only while `loadSuccess`
is still false, and each catches its own exceptions (a `...Throws` flag
turns the attempt into a failed one instead of an escaping exception). -/
def loadContentIntoKiCanvas (env : SourceElementEnv) (contentLength : Nat) :
    DeliveryResult :=
  let att1 : List (Strategy × Bool) :=
    if env.hasSetContent then [(Strategy.native, !env.setContentThrows)] else []
  let ok1 := env.hasSetContent && !env.setContentThrows
  let att2 :=
    if ok1 then att1 else att1 ++ [(Strategy.textContent, !env.textContentThrows)]
  let ok2 := ok1 || !env.textContentThrows
  let tryBlob := !ok2 && !env.blobUrlsNotSupported
  let att3 := if tryBlob then att2 ++ [(Strategy.blobUrl, !env.blobThrows)] else att2
  let ok3 := ok2 || (tryBlob && !env.blobThrows)
  let flagAfter := env.blobUrlsNotSupported || (tryBlob && env.blobThrows)
  let tryData := !ok3 && decide (contentLength < 1000000)
  let att4 := if tryData then att3 ++ [(Strategy.dataUrl, !env.dataUrlThrows)] else att3
  let ok4 := ok3 || (tryData && !env.dataUrlThrows)
  ⟨ok4, att4, flagAfter, tryBlob && !env.blobThrows⟩

/-- Presence and behaviour of one widget method probed by approach 1 of
`loadContentIntoKiCanvasEmbed`. -/
inductive MethodStatus
  | absent
  | succeeds
  | throws
deriving DecidableEq

/-- The five method names probed by approach 1, in their source order. -/
def contentMethods : List String :=
  ["setContent", "loadFromString", "loadContent", "setSource", "setData"]

/-- The approach-1 loop of `loadContentIntoKiCanvasEmbed`: call each present
method until one returns without throwing; a throwing call is caught and the
loop continues. Returns the attempts made and whether some call succeeded. -/
def runNativeMethods (f : String → MethodStatus) :
    List String → List (Strategy × Bool) × Bool
  | [] => ([], false)
  | m :: rest =>
    match f m with
    | .absent => runNativeMethods f rest
    | .succeeds => ([(Strategy.native, true)], true)
    | .throws =>
      let r := runNativeMethods f rest
      ((Strategy.native, false) :: r.1, r.2)

/-- Environment of one `loadContentIntoKiCanvasEmbed` run. -/
structure EmbedEnv where
  methodOf : String → MethodStatus
  dataUrlThrows : Bool
  blobThrows : Bool

/-- Result of an embed delivery run; `srcAttr` is the value assigned to the
src attribute, and `textContentSet` records whether the routine ever set
text content on the element (it has no such strategy). -/
structure EmbedResult where
  success : Bool
  attempts : List (Strategy × Bool)
  srcAttr : Option String
  textContentSet : Bool

/-- The data URL built from a MIME type and content. -/
def dataUrlOf (mimeType content : String) : String :=
  "data:" ++ mimeType ++ ";base64," ++ encodeUtf8ToBase64 content

/-- `loadContentIntoKiCanvasEmbed` from `App.mjs`: approach 1 probes the
five content methods; approach 2 — with no size test — base64-encodes the
whole content into a data URL and assigns it to the src attribute; approach
3 assigns a blob and content properties directly; the routine returns false
only when every approach throws, and it never sets text content. -/
def loadContentIntoKiCanvasEmbed (env : EmbedEnv) (fileContent : String)
    (_fileExtension : String) (mimeType : String) : EmbedResult :=
  let r := runNativeMethods env.methodOf contentMethods
  if r.2 then ⟨true, r.1, none, false⟩
  else if !env.dataUrlThrows then
    ⟨true, r.1 ++ [(Strategy.dataUrl, true)],
     some (dataUrlOf mimeType fileContent), false⟩
  else if !env.blobThrows then
    ⟨true, r.1 ++ [(Strategy.dataUrl, false), (Strategy.blobAssign, true)],
     none, false⟩
  else
    ⟨false, r.1 ++ [(Strategy.dataUrl, false), (Strategy.blobAssign, false)],
     none, false⟩

/-- `tryDataUrl` from `App.mjs`: content above the 1000000-character ceiling
throws before any encoding; otherwise the data URL is assigned to the source
element and the helper returns true. -/
def tryDataUrl (fileContent : String) (mimeType : String) :
    Except String (Bool × String) :=
  if fileContent.length > 1000000 then
    .error "File too large for data URL approach"
  else
    .ok (true, dataUrlOf mimeType fileContent)

/-- The shape of a fallback ladder that stops at its first success: every
attempt except possibly the last one failed, and the reported success is the
outcome of the last attempt (false when nothing was attempted). -/
def stopsAtFirstSuccess (attempts : List (Strategy × Bool)) (success : Bool) :
    Prop :=
  (∀ p ∈ attempts.dropLast, p.2 = false) ∧
  success = ((attempts.getLast?.map Prod.snd).getD false)

instance (attempts : List (Strategy × Bool)) (success : Bool) :
    Decidable (stopsAtFirstSuccess attempts success) :=
  inferInstanceAs (Decidable ((∀ p ∈ attempts.dropLast, p.2 = false) ∧
    success = ((attempts.getLast?.map Prod.snd).getD false)))

lemma stops_append_single (l : List (Strategy × Bool)) (q : Strategy × Bool)
    (hl : ∀ p ∈ l, p.2 = false) :
    stopsAtFirstSuccess (l ++ [q]) q.2 := by
  constructor
  · rw [List.dropLast_concat]
    exact hl
  · rw [List.getLast?_concat]
    rfl

lemma runNativeMethods_native (f : String → MethodStatus) :
    ∀ ms, ∀ p ∈ (runNativeMethods f ms).1, p.1 = Strategy.native
  | [] => by simp [runNativeMethods]
  | m :: rest => by
    intro p hp
    cases hf : f m with
    | absent =>
      simp only [runNativeMethods, hf] at hp
      exact runNativeMethods_native f rest p hp
    | succeeds =>
      simp only [runNativeMethods, hf, List.mem_singleton] at hp
      rw [hp]
    | throws =>
      simp only [runNativeMethods, hf, List.mem_cons] at hp
      rcases hp with rfl | hp2
      · rfl
      · exact runNativeMethods_native f rest p hp2

lemma runNativeMethods_failed (f : String → MethodStatus) :
    ∀ ms, (runNativeMethods f ms).2 = false →
      ∀ p ∈ (runNativeMethods f ms).1, p.2 = false
  | [] => by simp [runNativeMethods]
  | m :: rest => by
    intro hok p hp
    cases hf : f m with
    | absent =>
      simp only [runNativeMethods, hf] at hp hok
      exact runNativeMethods_failed f rest hok p hp
    | succeeds =>
      rw [runNativeMethods, hf] at hok
      cases hok
    | throws =>
      simp only [runNativeMethods, hf, List.mem_cons] at hp hok
      rcases hp with rfl | hp2
      · rfl
      · exact runNativeMethods_failed f rest hok p hp2

lemma runNativeMethods_stops (f : String → MethodStatus) :
    ∀ ms, stopsAtFirstSuccess (runNativeMethods f ms).1 (runNativeMethods f ms).2
  | [] => by simp [runNativeMethods, stopsAtFirstSuccess]
  | m :: rest => by
    have ih := runNativeMethods_stops f rest
    cases hf : f m with
    | absent => simpa only [runNativeMethods, hf] using ih
    | succeeds =>
      simp only [runNativeMethods, hf]
      decide
    | throws =>
      obtain ⟨iha, ihb⟩ := ih
      simp only [runNativeMethods, hf]
      constructor
      · intro p hp
        cases hr : (runNativeMethods f rest).1 with
        | nil => rw [hr] at hp; simp at hp
        | cons q qs =>
          rw [hr] at hp
          rw [List.dropLast_cons₂] at hp
          rcases List.mem_cons.mp hp with rfl | hp2
          · rfl
          · apply iha
            rw [hr]
            exact hp2
      · cases hr : (runNativeMethods f rest).1 with
        | nil =>
          rw [hr] at ihb
          simpa using ihb
        | cons q qs =>
          rw [hr] at ihb
          rw [List.getLast?_cons_cons]
          exact ihb

/- ----------------------------------------------------------------- -/
/- C3                                                                -/
/- ----------------------------------------------------------------- -/

/-- Embed environment for the counterexamples: no native content method is
available and nothing throws. -/
def embedEnvBare : EmbedEnv := ⟨fun _ => MethodStatus.absent, false, false⟩

/-- C3 counterexample: with no native method available,
`loadContentIntoKiCanvasEmbed` succeeds with the data-URL strategy as its
one and only attempt — the text-content and blob-object-URL strategies that
the claimed priority order places before the data URL are never attempted,
and no text content is ever set — so the claimed ladder does not hold of
this delivery routine. -/
theorem c3_counterexample :
    (loadContentIntoKiCanvasEmbed embedEnvBare "x" "kicad_pcb"
        "application/x-kicad-pcb").success = true ∧
    (loadContentIntoKiCanvasEmbed embedEnvBare "x" "kicad_pcb"
        "application/x-kicad-pcb").attempts = [(Strategy.dataUrl, true)] ∧
    ((loadContentIntoKiCanvasEmbed embedEnvBare "x" "kicad_pcb"
        "application/x-kicad-pcb").attempts.map Prod.fst).contains
      Strategy.textContent = false ∧
    ((loadContentIntoKiCanvasEmbed embedEnvBare "x" "kicad_pcb"
        "application/x-kicad-pcb").attempts.map Prod.fst).contains
      Strategy.blobUrl = false ∧
    (loadContentIntoKiCanvasEmbed embedEnvBare "x" "kicad_pcb"
        "application/x-kicad-pcb").textContentSet = false :=
  ⟨rfl, rfl, rfl, rfl, rfl⟩

/-- C3 (amended): the earlier-iteration routine `loadContentIntoKiCanvas`
implements the claimed ladder — strategies in the fixed order native
setContent, text content, blob URL, data URL, stopping at the first success,
every strategy exception caught (a throwing strategy shows up as a failed
attempt and the routine still returns) — while the App.mjs routine
`loadContentIntoKiCanvasEmbed` instead attempts the native methods, then the
data URL, then direct blob assignment, never attempting text content or a
blob object URL, though it too stops at its first success and propagates
nothing. -/
theorem c3_delivery_ladder_order :
    (∀ (env : SourceElementEnv) (len : Nat),
      List.Sublist ((loadContentIntoKiCanvas env len).attempts.map Prod.fst)
        [Strategy.native, Strategy.textContent, Strategy.blobUrl,
         Strategy.dataUrl] ∧
      stopsAtFirstSuccess (loadContentIntoKiCanvas env len).attempts
        (loadContentIntoKiCanvas env len).success) ∧
    (∀ (env : EmbedEnv) (content ext mime : String),
      (∃ k, (loadContentIntoKiCanvasEmbed env content ext mime).attempts.map
            Prod.fst
          = List.replicate k Strategy.native ++
            (((loadContentIntoKiCanvasEmbed env content ext mime).attempts.map
                Prod.fst).filter (fun s => s != Strategy.native))) ∧
      (((loadContentIntoKiCanvasEmbed env content ext mime).attempts.map
          Prod.fst).filter (fun s => s != Strategy.native))
        ∈ ([[], [Strategy.dataUrl], [Strategy.dataUrl, Strategy.blobAssign]] :
            List (List Strategy)) ∧
      (loadContentIntoKiCanvasEmbed env content ext mime).textContentSet
        = false ∧
      stopsAtFirstSuccess
        (loadContentIntoKiCanvasEmbed env content ext mime).attempts
        (loadContentIntoKiCanvasEmbed env content ext mime).success) := by
  constructor
  · intro env len
    obtain ⟨a, b, c, d, e, f⟩ := env
    cases hdec : decide (len < 1000000) <;>
      cases a <;> cases b <;> cases c <;> cases d <;> cases e <;> cases f <;>
        (simp only [loadContentIntoKiCanvas, hdec]; decide)
  · intro env content ext mime
    obtain ⟨f, du, bl⟩ := env
    have hnat := runNativeMethods_native f contentMethods
    have hrepl : (runNativeMethods f contentMethods).1.map Prod.fst
        = List.replicate
            (((runNativeMethods f contentMethods).1.map Prod.fst).length)
            Strategy.native := by
      apply List.eq_replicate_of_mem
      intro s hs
      simp only [List.mem_map] at hs
      obtain ⟨p, hp, rfl⟩ := hs
      exact hnat p hp
    have hfilt : ((runNativeMethods f contentMethods).1.map Prod.fst).filter
        (fun s => s != Strategy.native) = [] := by
      rw [List.filter_eq_nil_iff]
      intro s hs
      simp only [List.mem_map] at hs
      obtain ⟨p, hp, rfl⟩ := hs
      rw [hnat p hp]
      decide
    have hstops := runNativeMethods_stops f contentMethods
    cases hok : (runNativeMethods f contentMethods).2 with
    | true =>
      simp only [loadContentIntoKiCanvasEmbed, hok, if_true]
      refine ⟨⟨((runNativeMethods f contentMethods).1.map Prod.fst).length, ?_⟩,
        ?_, (by trivial), ?_⟩
      · rw [hfilt, List.append_nil]
        exact hrepl
      · rw [hfilt]; simp
      · rw [hok] at hstops
        exact hstops
    | false =>
      have hfail := runNativeMethods_failed f contentMethods hok
      cases du with
      | false =>
        simp only [loadContentIntoKiCanvasEmbed, hok, Bool.not_false, if_true,
          Bool.false_eq_true, if_false]
        refine ⟨⟨((runNativeMethods f contentMethods).1.map Prod.fst).length, ?_⟩,
          ?_, (by trivial), ?_⟩
        · rw [List.map_append, List.filter_append, hfilt, List.nil_append]
          conv_lhs => rw [hrepl]
          rfl
        · rw [List.map_append, List.filter_append, hfilt, List.nil_append]
          simp
        · exact stops_append_single _ (Strategy.dataUrl, true) hfail
      | true =>
        have hfail2 : ∀ p ∈ (runNativeMethods f contentMethods).1 ++
            [(Strategy.dataUrl, false)], p.2 = false := by
          intro p hp
          rcases List.mem_append.mp hp with hp1 | hp2
          · exact hfail p hp1
          · simp only [List.mem_singleton] at hp2
            rw [hp2]
        cases bl with
        | false =>
          simp only [loadContentIntoKiCanvasEmbed, hok, Bool.not_true,
            Bool.false_eq_true, if_false, Bool.not_false, if_true]
          refine ⟨⟨((runNativeMethods f contentMethods).1.map Prod.fst).length,
            ?_⟩, ?_, (by trivial), ?_⟩
          · rw [List.map_append, List.filter_append, hfilt, List.nil_append]
            conv_lhs => rw [hrepl]
            rfl
          · rw [List.map_append, List.filter_append, hfilt, List.nil_append]
            simp
          · have h2 : (runNativeMethods f contentMethods).1 ++
                [(Strategy.dataUrl, false), (Strategy.blobAssign, true)]
                = ((runNativeMethods f contentMethods).1 ++
                  [(Strategy.dataUrl, false)]) ++ [(Strategy.blobAssign, true)] := by
              rw [List.append_assoc]
              rfl
            rw [h2]
            exact stops_append_single _ (Strategy.blobAssign, true) hfail2
        | true =>
          simp only [loadContentIntoKiCanvasEmbed, hok, Bool.not_true,
            Bool.false_eq_true, if_false]
          refine ⟨⟨((runNativeMethods f contentMethods).1.map Prod.fst).length,
            ?_⟩, ?_, (by trivial), ?_⟩
          · rw [List.map_append, List.filter_append, hfilt, List.nil_append]
            conv_lhs => rw [hrepl]
            rfl
          · rw [List.map_append, List.filter_append, hfilt, List.nil_append]
            simp
          · have h2 : (runNativeMethods f contentMethods).1 ++
                [(Strategy.dataUrl, false), (Strategy.blobAssign, false)]
                = ((runNativeMethods f contentMethods).1 ++
                  [(Strategy.dataUrl, false)]) ++ [(Strategy.blobAssign, false)] := by
              rw [List.append_assoc]
              rfl
            rw [h2]
            exact stops_append_single _ (Strategy.blobAssign, false) hfail2

/-- Witness for C3 (amended) at concrete runs of both routines. -/
theorem c3_delivery_ladder_order_witness :
    List.Sublist ((loadContentIntoKiCanvas ⟨true, false, false, false, false,
        false⟩ 5).attempts.map Prod.fst)
      [Strategy.native, Strategy.textContent, Strategy.blobUrl,
       Strategy.dataUrl] ∧
    stopsAtFirstSuccess
      (loadContentIntoKiCanvasEmbed embedEnvBare "x" "kicad_pcb"
        "application/x-kicad-pcb").attempts
      (loadContentIntoKiCanvasEmbed embedEnvBare "x" "kicad_pcb"
        "application/x-kicad-pcb").success :=
  ⟨(c3_delivery_ladder_order.1 ⟨true, false, false, false, false, false⟩ 5).1,
   (c3_delivery_ladder_order.2 embedEnvBare "x" "kicad_pcb"
      "application/x-kicad-pcb").2.2.2⟩

/- ----------------------------------------------------------------- -/
/- C4                                                                -/
/- ----------------------------------------------------------------- -/

/-- A content string of length 1000001, above the data-URL size ceiling. -/
def bigContent : String := String.mk (List.replicate 1000001 'a')

/-- C4 counterexample: on content of length 1000001 — above the ceiling —
`loadContentIntoKiCanvasEmbed` with no other strategy available still
attempts the data-URL strategy, succeeds through it, and assigns the data
URL to the src attribute, because its data-URL fallback has no size test. -/
theorem c4_counterexample :
    bigContent.length = 1000001 ∧
    (loadContentIntoKiCanvasEmbed embedEnvBare bigContent "kicad_pcb"
        "application/x-kicad-pcb").attempts = [(Strategy.dataUrl, true)] ∧
    (loadContentIntoKiCanvasEmbed embedEnvBare bigContent "kicad_pcb"
        "application/x-kicad-pcb").success = true ∧
    (loadContentIntoKiCanvasEmbed embedEnvBare bigContent "kicad_pcb"
        "application/x-kicad-pcb").srcAttr
      = some (dataUrlOf "application/x-kicad-pcb" bigContent) := by
  refine ⟨?_, rfl, rfl, rfl⟩
  show (List.replicate 1000001 'a').length = 1000001
  rw [List.length_replicate]

/-- C4 (amended): the size ceiling is honoured by `tryDataUrl` (content over
1000000 characters throws before any encoding, producing no data URL) and by
`loadContentIntoKiCanvas` (its approach 4 is skipped entirely at or above
the ceiling, and with no other strategy available the routine reports
overall failure); `loadContentIntoKiCanvasEmbed`, however, attempts the
data-URL strategy whenever the native methods fail, regardless of content
length, and produces the full data URL when the encoding does not throw. -/
theorem c4_data_url_ceiling :
    (∀ content mime : String, content.length > 1000000 →
      tryDataUrl content mime = .error "File too large for data URL approach") ∧
    (∀ (env : SourceElementEnv) (len : Nat), 1000000 ≤ len →
      ((loadContentIntoKiCanvas env len).attempts.map Prod.fst).contains
        Strategy.dataUrl = false) ∧
    (∀ (env : SourceElementEnv) (len : Nat), 1000000 ≤ len →
      env.hasSetContent = false → env.textContentThrows = true →
      env.blobUrlsNotSupported = true →
      (loadContentIntoKiCanvas env len).success = false) ∧
    (∀ (env : EmbedEnv) (content ext mime : String),
      (runNativeMethods env.methodOf contentMethods).2 = false →
      env.dataUrlThrows = false →
      Strategy.dataUrl ∈
        ((loadContentIntoKiCanvasEmbed env content ext mime).attempts.map
          Prod.fst) ∧
      (loadContentIntoKiCanvasEmbed env content ext mime).srcAttr
        = some (dataUrlOf mime content)) := by
  refine ⟨?_, ?_, ?_, ?_⟩
  · intro content mime h
    rw [tryDataUrl, if_pos h]
  · intro env len hlen
    have hd : decide (len < 1000000) = false := by
      simp only [decide_eq_false_iff_not]
      omega
    obtain ⟨a, b, c, d, e, f⟩ := env
    cases a <;> cases b <;> cases c <;> cases d <;> cases e <;> cases f <;>
      (simp only [loadContentIntoKiCanvas, hd]; decide)
  · intro env len hlen h1 h2 h3
    have hd : decide (len < 1000000) = false := by
      simp only [decide_eq_false_iff_not]
      omega
    obtain ⟨a, b, c, d, e, f⟩ := env
    simp only at h1 h2 h3
    subst h1
    subst h2
    subst h3
    cases b <;> cases e <;> cases f <;>
      (simp only [loadContentIntoKiCanvas, hd]; decide)
  · intro env content ext mime hok hdu
    obtain ⟨f, du, bl⟩ := env
    simp only at hok hdu
    subst hdu
    simp only [loadContentIntoKiCanvasEmbed, hok, Bool.false_eq_true, if_false,
      Bool.not_false, if_true]
    constructor
    · rw [List.map_append]
      exact List.mem_append_right _ (by simp)
    · trivial

/-- Witness for C4 (amended) at concrete runs. -/
theorem c4_data_url_ceiling_witness :
    tryDataUrl bigContent "application/x-kicad-pcb"
      = .error "File too large for data URL approach" ∧
    ((loadContentIntoKiCanvas ⟨false, false, true, true, false, false⟩
        1000001).attempts.map Prod.fst).contains Strategy.dataUrl = false ∧
    (loadContentIntoKiCanvas ⟨false, false, true, true, false, false⟩
        1000001).success = false ∧
    Strategy.dataUrl ∈
      ((loadContentIntoKiCanvasEmbed embedEnvBare bigContent "kicad_pcb"
        "application/x-kicad-pcb").attempts.map Prod.fst) :=
  ⟨c4_data_url_ceiling.1 bigContent "application/x-kicad-pcb"
      (by show (List.replicate 1000001 'a').length > 1000000
          rw [List.length_replicate]
          omega),
   c4_data_url_ceiling.2.1 ⟨false, false, true, true, false, false⟩ 1000001
      (by omega),
   c4_data_url_ceiling.2.2.1 ⟨false, false, true, true, false, false⟩ 1000001
      (by omega) rfl rfl rfl,
   (c4_data_url_ceiling.2.2.2 embedEnvBare bigContent "kicad_pcb"
      "application/x-kicad-pcb" rfl rfl).1⟩

/- ----------------------------------------------------------------- -/
/- C8: teardown (destruct / cleanupKiCanvas) and object-URL timers    -/
/- ----------------------------------------------------------------- -/

/-- Client view-session state: the child nodes of the tracked widget
element, the kicanvas-embed elements present in the document, whether the
loading observer is connected, and the object-URL bookkeeping — URLs created
by `URL.createObjectURL`, URLs already revoked, and URLs whose delayed
revocation timer (30 or 60 seconds) is still pending. -/
structure ViewState where
  children : List Nat
  documentEmbeds : List Nat
  observerActive : Bool
  createdUrls : List Nat
  revokedUrls : List Nat
  pendingTimers : List Nat
deriving DecidableEq

/-- `destruct` of the earlier App iteration: while the tracked embed has a
first child, remove it; nothing else is touched. -/
def destructEarly (s : ViewState) : ViewState := { s with children := [] }

/-- `cleanupKiCanvas` of `App.mjs`: remove every kicanvas-embed element from
the document; nothing else is touched. -/
def cleanupKiCanvas (s : ViewState) : ViewState := { s with documentEmbeds := [] }

/-- `destruct` of `App.mjs`: disconnect the loading observer, then
`cleanupKiCanvas`. -/
def destructApp (s : ViewState) : ViewState :=
  cleanupKiCanvas { s with observerActive := false }

/-- `tryBlobUrl` / the blob branch of `initKiCanvas`: create an object URL
and schedule its revocation on a delayed timer. -/
def createBlobUrl (u : Nat) (s : ViewState) : ViewState :=
  { s with createdUrls := s.createdUrls ++ [u],
           pendingTimers := s.pendingTimers ++ [u] }

/-- A scheduled revocation timer firing: revoke the URL. -/
def revocationTimerFire (u : Nat) (s : ViewState) : ViewState :=
  { s with revokedUrls := s.revokedUrls ++ [u],
           pendingTimers := s.pendingTimers.filter (fun v => v != u) }

/-- A session state with one widget child and one created, not yet revoked
object URL whose timer is still pending. -/
def c8State : ViewState := ⟨[5], [9], true, [7], [], [7]⟩

/-- C8 counterexample: tearing down a session holding a created object URL
removes the widget children (and document embeds) but revokes nothing: after
either `destruct`, the created URL 7 is still unrevoked and its revocation
is still only pending on the delayed timer. -/
theorem c8_counterexample :
    (destructEarly c8State).children = [] ∧
    (destructApp c8State).documentEmbeds = [] ∧
    (7 ∈ c8State.createdUrls) ∧
    ((destructEarly c8State).revokedUrls.contains 7) = false ∧
    ((destructApp c8State).revokedUrls.contains 7) = false ∧
    (destructEarly c8State).pendingTimers = [7] ∧
    (destructApp c8State).pendingTimers = [7] := by
  refine ⟨rfl, rfl, ?_, rfl, rfl, rfl, rfl⟩
  simp [c8State]

/-- C8 (amended): on teardown every child node of the tracked widget is
removed (`destruct` of the earlier iteration), the document embeds are
removed and the observer disconnected (`destruct` of `App.mjs`), but
temporary object URLs are not revoked eagerly: both teardown paths leave the
revoked-URL set and the pending delayed timers unchanged, and a URL is
revoked only when its earlier-scheduled timer fires. -/
theorem c8_teardown_no_eager_revocation (s : ViewState) (u : Nat) :
    (destructEarly s).children = [] ∧
    (destructEarly s).revokedUrls = s.revokedUrls ∧
    (destructEarly s).pendingTimers = s.pendingTimers ∧
    (destructEarly s).createdUrls = s.createdUrls ∧
    (destructApp s).documentEmbeds = [] ∧
    (destructApp s).observerActive = false ∧
    (destructApp s).revokedUrls = s.revokedUrls ∧
    (destructApp s).pendingTimers = s.pendingTimers ∧
    (destructApp s).createdUrls = s.createdUrls ∧
    (revocationTimerFire u s).revokedUrls = s.revokedUrls ++ [u] ∧
    (createBlobUrl u s).pendingTimers = s.pendingTimers ++ [u] :=
  ⟨rfl, rfl, rfl, rfl, rfl, rfl, rfl, rfl, rfl, rfl, rfl⟩
